import Mathlib

/-!
Verification of the `ElementsRpcSigner` signing backend of `amp-rs`
(src/src/signer/node.rs), a remote-delegated transaction signer that
forwards signing requests to an Elements node over an RPC channel.

The embedding models:
* `serde_json::Value` as the inductive `Json` (integers only; the claims
  involve no floating-point values), with `get`, `as_str`, `as_bool` and
  compact serialization mirroring `serde_json`;
* Rust byte-level string semantics (`str::len`, `is_char_boundary`, the
  panicking byte slice `&s[..n]`) via an explicit UTF-8 encoder, since
  `sign_transaction` slices its input at byte index `min(len, 64)` inside a
  `tracing::debug!` event whose arguments are evaluated only when
  debug-level logging is enabled (the `debug : Bool` parameter);
* the RPC channel as an oracle `RpcCall → Except String Json`, with the
  list of issued calls returned alongside the outcome so that "exactly one
  RPC call" claims are statable.
-/

/-- UTF-8 encoding of a single character, as the list of its byte values
(mirrors how Rust's `str` stores text, so that `str::len` and
`str::is_char_boundary` can be modelled faithfully). -/
def utf8Bytes (c : Char) : List Nat :=
  let n := c.toNat
  if n < 0x80 then [n]
  else if n < 0x800 then [0xC0 + n / 64, 0x80 + n % 64]
  else if n < 0x10000 then [0xE0 + n / 4096, 0x80 + (n / 64) % 64, 0x80 + n % 64]
  else [0xF0 + n / 262144, 0x80 + (n / 4096) % 64, 0x80 + (n / 64) % 64, 0x80 + n % 64]

/-- The UTF-8 byte sequence of a string, as seen by Rust's `str::as_bytes`. -/
def strBytes (s : String) : List Nat :=
  (s.data.map utf8Bytes).flatten

/-- Rust's `str::len`: the length in bytes (not characters). -/
def rustByteLen (s : String) : Nat :=
  (strBytes s).length

/-- Rust's `str::is_char_boundary`: `true` at 0, at the total byte length,
and at any index whose byte is not a UTF-8 continuation byte. -/
def isCharBoundary (s : String) (i : Nat) : Bool :=
  if i = 0 then true
  else
    match (strBytes s).get? i with
    | none => i = rustByteLen s
    | some b => b < 0x80 || 0xC0 ≤ b

/-- The byte index at which `sign_transaction` truncates a string for its
debug trace: `std::cmp::min(s.len(), 64)`. -/
def debugPrefixLen (s : String) : Nat :=
  min (rustByteLen s) 64

/-- Whether the byte slice `&s[..min(s.len), 64)]` taken by the debug trace
succeeds; when the cut index is not a character boundary the slice panics. -/
def debugSliceOk (s : String) : Bool :=
  isCharBoundary s (debugPrefixLen s)

/-- Shallow embedding of `serde_json::Value`. Numbers are modelled as
integers; the signing protocol's claims involve no floating-point values. -/
inductive Json where
  | null
  | bool (b : Bool)
  | num (n : Int)
  | str (s : String)
  | arr (elems : List Json)
  | obj (fields : List (String × Json))

/-- `serde_json::Value::get` with a string index: field lookup on objects,
`None` on every other value. -/
def Json.get : Json → String → Option Json
  | .obj fields, key => fields.lookup key
  | _, _ => none

/-- `serde_json::Value::as_str`: the payload of a string value, else `None`. -/
def Json.as_str : Json → Option String
  | .str s => some s
  | _ => none

/-- `serde_json::Value::as_bool`: the payload of a boolean value, else `None`. -/
def Json.as_bool : Json → Option Bool
  | .bool b => some b
  | _ => none

/-- One hexadecimal digit, lowercase, as used by `serde_json` escapes. -/
def hexDigit (n : Nat) : String :=
  if n = 0 then "0" else if n = 1 then "1" else if n = 2 then "2"
  else if n = 3 then "3" else if n = 4 then "4" else if n = 5 then "5"
  else if n = 6 then "6" else if n = 7 then "7" else if n = 8 then "8"
  else if n = 9 then "9" else if n = 10 then "a" else if n = 11 then "b"
  else if n = 12 then "c" else if n = 13 then "d" else if n = 14 then "e"
  else "f"

/-- `serde_json`'s escaping of one character inside a JSON string literal:
quote and backslash are backslash-escaped, the named control characters get
their short escapes, other control characters get `\u00XX`, everything else
is emitted as itself. -/
def escapeChar (c : Char) : String :=
  if c = '"' then "\\\""
  else if c = '\\' then "\\\\"
  else if c = '\x08' then "\\b"
  else if c = '\x09' then "\\t"
  else if c = '\x0a' then "\\n"
  else if c = '\x0c' then "\\f"
  else if c = '\x0d' then "\\r"
  else if c.toNat < 0x20 then "\\u00" ++ hexDigit (c.toNat / 16) ++ hexDigit (c.toNat % 16)
  else String.singleton c

/-- Body of a serialized JSON string (characters escaped, no quotes). -/
def escapeStr (s : String) : String :=
  String.join (s.data.map escapeChar)

mutual

/-- Compact serialization of a JSON value, mirroring `serde_json::to_string`
(which always succeeds on a `Value`). -/
def Json.serialize : Json → String
  | .null => "null"
  | .bool true => "true"
  | .bool false => "false"
  | .num n => toString n
  | .str s => "\"" ++ escapeStr s ++ "\""
  | .arr xs => "[" ++ serializeElems xs ++ "]"
  | .obj fs => "\x7b" ++ serializeFields fs ++ "\x7d"

/-- Comma-separated serialization of array elements. -/
def serializeElems : List Json → String
  | [] => ""
  | [x] => Json.serialize x
  | x :: y :: rest => Json.serialize x ++ "," ++ serializeElems (y :: rest)

/-- Comma-separated serialization of object fields. -/
def serializeFields : List (String × Json) → String
  | [] => ""
  | [kv] => "\"" ++ escapeStr kv.1 ++ "\":" ++ Json.serialize kv.2
  | kv :: kv2 :: rest =>
      "\"" ++ escapeStr kv.1 ++ "\":" ++ Json.serialize kv.2 ++ "," ++
        serializeFields (kv2 :: rest)

end

/-- Modelled from the spec: the error taxonomy `SignerError` lives in
src/signer/error.rs, which is not among the provided sources. Only the
variants referenced by src/src/signer/node.rs are modelled: `HexParse`
(listed by the method's documentation), and `InvalidTransaction` and `Lwk`
(constructed by `sign_transaction`), each carrying its detail text. The
spec's taxonomy names these kinds `EncodingError`, `InvalidTransaction`
and `RemoteSigningFailure`/`WrappedLibraryError` respectively. -/
inductive SignerError where
  | HexParse (detail : String)
  | InvalidTransaction (detail : String)
  | Lwk (detail : String)

/-- One RPC request as issued through `ElementsRpc::rpc_call`: a method name
and a JSON array of positional parameters. -/
structure RpcCall where
  method : String
  params : List Json

/-- Outcome of running `sign_transaction`: either a Rust panic (with the
panic message) or a normal return of `Result<String, SignerError>`. -/
inductive RunResult where
  | panicked (msg : String)
  | ret (r : Except SignerError String)

/-- The panic message of a failed `&s[..n]` byte slice. -/
def sliceErrMsg (n : Nat) : String :=
  "byte index " ++ toString n ++ " is not a char boundary"

/-- Shallow embedding of `ElementsRpcSigner::sign_transaction`
(src/src/signer/node.rs, lines 209-279). `debug` states whether debug-level
tracing is enabled (the arguments of `tracing::debug!`, including the two
truncating byte slices, are evaluated exactly in that case). `rpc` is the
oracle for `ElementsRpc::rpc_call`, returning the decoded JSON response or
a transport/service error rendered as text. The second component of the
result lists the RPC calls issued, in order. The strings use `\x27` for
the ASCII apostrophe appearing in the source's message texts. -/
def sign_transaction (debug : Bool) (rpc : RpcCall → Except String Json)
    (unsigned_tx : String) : RunResult × List RpcCall :=
  if debug && !debugSliceOk unsigned_tx then
    (.panicked (sliceErrMsg (debugPrefixLen unsigned_tx)), [])
  else if rustByteLen unsigned_tx = 0 then
    (.ret (.error (.InvalidTransaction "Unsigned transaction hex cannot be empty")), [])
  else if rustByteLen unsigned_tx % 2 ≠ 0 then
    (.ret (.error (.InvalidTransaction "Unsigned transaction hex must have even length")), [])
  else
    let call : RpcCall := ⟨"signrawtransactionwithwallet", [Json.str unsigned_tx]⟩
    match rpc call with
    | .error e =>
        (.ret (.error (.Lwk ("Node wallet signing failed: " ++ e ++
          ". Ensure wallet is unlocked and contains required keys."))), [call])
    | .ok sign_result =>
        match (sign_result.get "hex").bind Json.as_str with
        | none =>
            (.ret (.error (.InvalidTransaction
              "Node signing result missing \x27hex\x27 field")), [call])
        | some signed_tx =>
            let complete := ((sign_result.get "complete").bind Json.as_bool).getD false
            if !complete then
              let errors := match sign_result.get "errors" with
                | some v => Json.serialize v
                | none => "Unknown errors"
              (.ret (.error (.InvalidTransaction
                ("Transaction signing incomplete. The node\x27s wallet may be missing required keys. Errors: "
                  ++ errors))), [call])
            else if debug && !debugSliceOk signed_tx then
              (.panicked (sliceErrMsg (debugPrefixLen signed_tx)), [call])
            else
              (.ret (.ok signed_tx), [call])

/-- An input on which the entry debug trace of `sign_transaction` panics:
63 ASCII characters followed by a two-byte character, so that byte index
`min(len, 64) = 64` falls inside the final character and the byte slice
`&unsigned_tx[..64]` is not on a character boundary. -/
def badBoundaryInput : String :=
  String.mk (List.replicate 63 'a' ++ ['é'])

/-- C1: for every input passing shared validation (non-empty, even byte
length; and whose entry trace does not panic), if the RPC call fails with
transport/service error `e`, `sign_transaction` returns the remote-signing
failure kind — realized in the code as `SignerError::Lwk` — whose detail
explains that the remote wallet may be locked or missing required keys. -/
theorem c1_remote_failure_mapped (debug : Bool) (rpc : RpcCall → Except String Json)
    (tx : String) (e : String)
    (hdbg : debugSliceOk tx = true) (hne : rustByteLen tx ≠ 0)
    (hev : rustByteLen tx % 2 = 0)
    (hrpc : rpc ⟨"signrawtransactionwithwallet", [Json.str tx]⟩ = .error e) :
    (sign_transaction debug rpc tx).1 =
      .ret (.error (.Lwk ("Node wallet signing failed: " ++ e ++
        ". Ensure wallet is unlocked and contains required keys."))) := by
  unfold sign_transaction
  rw [hdbg]
  simp [hne, hev, hrpc]

/-- Witness for C1 at a concrete input and a concrete failing channel. -/
theorem c1_witness :
    (sign_transaction false (fun _ => .error "connection refused") "ab").1 =
      .ret (.error (.Lwk ("Node wallet signing failed: " ++ "connection refused" ++
        ". Ensure wallet is unlocked and contains required keys."))) :=
  c1_remote_failure_mapped false (fun _ => .error "connection refused") "ab"
    "connection refused" (by decide) (by decide) (by decide) rfl

/-- C2: refuted — with debug-level tracing enabled, the entry trace slices
the input at byte index `min(len, 64)` and panics when that index is not a
character boundary, instead of returning a typed result; no RPC call is
issued. `badBoundaryInput` is such an input. -/
theorem c2_panics_on_entry_slice (rpc : RpcCall → Except String Json) :
    sign_transaction true rpc badBoundaryInput = (.panicked (sliceErrMsg 64), []) := by
  have h : debugSliceOk badBoundaryInput = false := by decide
  have h2 : debugPrefixLen badBoundaryInput = 64 := by decide
  unfold sign_transaction
  rw [h, h2]
  simp

/-- C4: for every non-empty, even-byte-length input (whose entry trace does
not panic), `sign_transaction` issues exactly one RPC call, named
`signrawtransactionwithwallet`, with the input as sole positional argument —
whatever the channel's outcome, and with no retry. -/
theorem c4_exactly_one_rpc_call (debug : Bool) (rpc : RpcCall → Except String Json)
    (tx : String)
    (hdbg : debugSliceOk tx = true) (hne : rustByteLen tx ≠ 0)
    (hev : rustByteLen tx % 2 = 0) :
    (sign_transaction debug rpc tx).2 =
      [⟨"signrawtransactionwithwallet", [Json.str tx]⟩] := by
  unfold sign_transaction
  rw [hdbg]
  simp only [Bool.not_true, Bool.and_false, Bool.false_eq_true, if_false, hne, hev,
    ite_false, if_neg, ne_eq, not_true_eq_false, not_false_eq_true, if_true]
  split
  · rfl
  · split
    · rfl
    · split
      · rfl
      · split <;> rfl

/-- Witness for C4 at a concrete input and channel. -/
theorem c4_witness :
    (sign_transaction false (fun _ => .ok Json.null) "ab").2 =
      [⟨"signrawtransactionwithwallet", [Json.str "ab"]⟩] :=
  c4_exactly_one_rpc_call false (fun _ => .ok Json.null) "ab"
    (by decide) (by decide) (by decide)

/-- C8: on the empty input, `sign_transaction` returns
`InvalidTransaction("Unsigned transaction hex cannot be empty")` (whose text
contains "cannot be empty") and issues no RPC call, under any channel and
any tracing configuration. -/
theorem c8_empty_rejected (debug : Bool) (rpc : RpcCall → Except String Json) :
    sign_transaction debug rpc "" =
      (.ret (.error (.InvalidTransaction "Unsigned transaction hex cannot be empty")), []) := by
  have h : debugSliceOk "" = true := by decide
  have h2 : rustByteLen "" = 0 := by decide
  unfold sign_transaction
  rw [h, h2]
  simp

/-- C9: on every odd-byte-length input (whose entry trace does not panic),
`sign_transaction` returns `InvalidTransaction("Unsigned transaction hex
must have even length")` (whose text contains "even length") and issues no
RPC call. -/
theorem c9_odd_length_rejected (debug : Bool) (rpc : RpcCall → Except String Json)
    (tx : String)
    (hdbg : debugSliceOk tx = true) (hodd : rustByteLen tx % 2 = 1) :
    sign_transaction debug rpc tx =
      (.ret (.error (.InvalidTransaction "Unsigned transaction hex must have even length")), []) := by
  have hne : rustByteLen tx ≠ 0 := by
    intro h0
    rw [h0] at hodd
    simp at hodd
  unfold sign_transaction
  rw [hdbg]
  simp [hne, hodd]

/-- Witness for C9 at the spec's own example input `"abc"`, with tracing on. -/
theorem c9_witness :
    sign_transaction true (fun _ => .ok Json.null) "abc" =
      (.ret (.error (.InvalidTransaction "Unsigned transaction hex must have even length")), []) :=
  c9_odd_length_rejected true (fun _ => .ok Json.null) "abc" (by decide) (by decide)

/-- C3: for every successful RPC response in which the field `complete` is
absent, `sign_transaction` fails closed: it returns an `InvalidTransaction`
error (either the missing-`hex` error, or — when `hex` is present — the
incomplete-signing error, since the absent `complete` defaults to `false`),
never the signed transaction. -/
theorem c3_absent_complete_fails_closed (debug : Bool)
    (rpc : RpcCall → Except String Json) (tx : String) (resp : Json)
    (hdbg : debugSliceOk tx = true) (hne : rustByteLen tx ≠ 0)
    (hev : rustByteLen tx % 2 = 0)
    (hrpc : rpc ⟨"signrawtransactionwithwallet", [Json.str tx]⟩ = .ok resp)
    (hc : resp.get "complete" = none) :
    ∃ detail, (sign_transaction debug rpc tx).1 =
      .ret (.error (.InvalidTransaction detail)) := by
  unfold sign_transaction
  rw [hdbg]
  simp only [Bool.not_true, Bool.and_false, Bool.false_eq_true, if_false, hne, hev,
    ite_false, ne_eq, not_true_eq_false, not_false_eq_true, if_true, hrpc]
  cases hh : (resp.get "hex").bind Json.as_str with
  | none =>
      exact ⟨"Node signing result missing \x27hex\x27 field", by simp⟩
  | some signed =>
      refine ⟨"Transaction signing incomplete. The node\x27s wallet may be missing required keys. Errors: "
        ++ (match resp.get "errors" with
            | some v => Json.serialize v
            | none => "Unknown errors"), ?_⟩
      simp [hc]

/-- Witness for C3: a response carrying `hex` but no `complete` field is
rejected rather than accepted. -/
theorem c3_witness :
    ∃ detail,
      (sign_transaction false (fun _ => .ok (Json.obj [("hex", Json.str "ABCD")])) "ab").1 =
        .ret (.error (.InvalidTransaction detail)) :=
  c3_absent_complete_fails_closed false
    (fun _ => .ok (Json.obj [("hex", Json.str "ABCD")])) "ab"
    (Json.obj [("hex", Json.str "ABCD")])
    (by decide) (by decide) (by decide) rfl rfl

/-- C5: for every successful RPC response whose `hex` field is the string
`"ABCD"` and whose `complete` field is `true`, `sign_transaction` returns
`Ok("ABCD")` — exactly the response's `hex` value. -/
theorem c5_success_returns_hex (debug : Bool)
    (rpc : RpcCall → Except String Json) (tx : String) (resp : Json)
    (hdbg : debugSliceOk tx = true) (hne : rustByteLen tx ≠ 0)
    (hev : rustByteLen tx % 2 = 0)
    (hrpc : rpc ⟨"signrawtransactionwithwallet", [Json.str tx]⟩ = .ok resp)
    (hhex : resp.get "hex" = some (Json.str "ABCD"))
    (hc : resp.get "complete" = some (Json.bool true)) :
    (sign_transaction debug rpc tx).1 = .ret (.ok "ABCD") := by
  have hsl : debugSliceOk "ABCD" = true := by decide
  unfold sign_transaction
  rw [hdbg]
  simp [hne, hev, hrpc, hhex, hc, Json.as_str, Json.as_bool, hsl]

/-- Witness for C5 at the spec's simulated response, with tracing on. -/
theorem c5_witness :
    (sign_transaction true
      (fun _ => .ok (Json.obj [("hex", Json.str "ABCD"), ("complete", Json.bool true)]))
      "ab").1 = .ret (.ok "ABCD") :=
  c5_success_returns_hex true
    (fun _ => .ok (Json.obj [("hex", Json.str "ABCD"), ("complete", Json.bool true)]))
    "ab" (Json.obj [("hex", Json.str "ABCD"), ("complete", Json.bool true)])
    (by decide) (by decide) (by decide) rfl rfl rfl

/-- C6: for every successful RPC response carrying a textual `hex` field but
`complete = false`, `sign_transaction` returns `InvalidTransaction` whose
detail appends, after the fixed incomplete-signing text, the response's
`errors` field serialized to compact JSON when present, or the placeholder
`"Unknown errors"` when absent. -/
theorem c6_incomplete_reports_errors (debug : Bool)
    (rpc : RpcCall → Except String Json) (tx : String) (resp : Json) (h : String)
    (hdbg : debugSliceOk tx = true) (hne : rustByteLen tx ≠ 0)
    (hev : rustByteLen tx % 2 = 0)
    (hrpc : rpc ⟨"signrawtransactionwithwallet", [Json.str tx]⟩ = .ok resp)
    (hhex : (resp.get "hex").bind Json.as_str = some h)
    (hc : resp.get "complete" = some (Json.bool false)) :
    (sign_transaction debug rpc tx).1 = .ret (.error (.InvalidTransaction
      ("Transaction signing incomplete. The node\x27s wallet may be missing required keys. Errors: "
        ++ (match resp.get "errors" with
            | some v => Json.serialize v
            | none => "Unknown errors")))) := by
  unfold sign_transaction
  rw [hdbg]
  simp [hne, hev, hrpc, hhex, hc, Json.as_bool]

/-- Witness for C6: a response with `complete = false` and an `errors` array
yields the incomplete-signing error carrying the serialized `errors` value. -/
theorem c6_witness :
    (sign_transaction false
      (fun _ => .ok (Json.obj [("hex", Json.str "ABCD"), ("complete", Json.bool false),
        ("errors", Json.arr [Json.str "missing key"])]))
      "ab").1 = .ret (.error (.InvalidTransaction
        ("Transaction signing incomplete. The node\x27s wallet may be missing required keys. Errors: "
          ++ "[\"missing key\"]"))) := by
  rw [c6_incomplete_reports_errors false
    (fun _ => .ok (Json.obj [("hex", Json.str "ABCD"), ("complete", Json.bool false),
      ("errors", Json.arr [Json.str "missing key"])]))
    "ab" (Json.obj [("hex", Json.str "ABCD"), ("complete", Json.bool false),
      ("errors", Json.arr [Json.str "missing key"])]) "ABCD"
    (by decide) (by decide) (by decide) rfl rfl rfl]
  rfl

/-- C7 counterexample: on a response without a `hex` field, the error detail
is the source's `"Node signing result missing 'hex' field"` (written with
`\x27` for the apostrophe), which is not the message
`"missing signed transaction field"` stated by the claim. -/
theorem c7_counterexample :
    (sign_transaction false (fun _ => .ok (Json.obj [("complete", Json.bool true)])) "ab").1 =
      .ret (.error (.InvalidTransaction "Node signing result missing \x27hex\x27 field")) ∧
    "Node signing result missing \x27hex\x27 field" ≠ "missing signed transaction field" := by
  exact ⟨rfl, by decide⟩

/-- C7 as amended: for every successful RPC response whose `hex` field is
absent or not a string, `sign_transaction` returns `InvalidTransaction` with
the message `"Node signing result missing 'hex' field"`, which contains
"missing" and "hex". -/
theorem c7_missing_hex_field (debug : Bool)
    (rpc : RpcCall → Except String Json) (tx : String) (resp : Json)
    (hdbg : debugSliceOk tx = true) (hne : rustByteLen tx ≠ 0)
    (hev : rustByteLen tx % 2 = 0)
    (hrpc : rpc ⟨"signrawtransactionwithwallet", [Json.str tx]⟩ = .ok resp)
    (hhex : (resp.get "hex").bind Json.as_str = none) :
    (sign_transaction debug rpc tx).1 =
      .ret (.error (.InvalidTransaction "Node signing result missing \x27hex\x27 field")) := by
  unfold sign_transaction
  rw [hdbg]
  simp [hne, hev, hrpc, hhex]

/-- Witness for C7's amended statement: a response whose `hex` field is
present but not text is rejected with the missing-field message. -/
theorem c7_witness :
    (sign_transaction false (fun _ => .ok (Json.obj [("hex", Json.num 3)])) "ab").1 =
      .ret (.error (.InvalidTransaction "Node signing result missing \x27hex\x27 field")) :=
  c7_missing_hex_field false (fun _ => .ok (Json.obj [("hex", Json.num 3)])) "ab"
    (Json.obj [("hex", Json.num 3)]) (by decide) (by decide) (by decide) rfl rfl

/-- C10: every error ever produced by `sign_transaction` — across all
inputs, tracing configurations and channel outcomes — is of variant
`InvalidTransaction` or `Lwk`; in particular `HexParse`, which the method's
own documentation lists, is never produced. -/
theorem c10_error_variants_closed (debug : Bool)
    (rpc : RpcCall → Except String Json) (tx : String) (e : SignerError)
    (h : (sign_transaction debug rpc tx).1 = .ret (.error e)) :
    (∃ d, e = .InvalidTransaction d) ∨ (∃ d, e = .Lwk d) := by
  unfold sign_transaction at h
  by_cases hd : (debug && !debugSliceOk tx) = true
  · rw [if_pos hd] at h
    simp at h
  · rw [if_neg hd] at h
    by_cases h0 : rustByteLen tx = 0
    · rw [if_pos h0] at h
      have h' : SignerError.InvalidTransaction "Unsigned transaction hex cannot be empty" = e := by
        simpa using h
      exact Or.inl ⟨_, h'.symm⟩
    · rw [if_neg h0] at h
      by_cases hm : rustByteLen tx % 2 ≠ 0
      · rw [if_pos hm] at h
        have h' : SignerError.InvalidTransaction "Unsigned transaction hex must have even length" = e := by
          simpa using h
        exact Or.inl ⟨_, h'.symm⟩
      · rw [if_neg hm] at h
        simp only [] at h
        rcases hr : rpc ⟨"signrawtransactionwithwallet", [Json.str tx]⟩ with er | resp
        · rw [hr] at h
          have h' : SignerError.Lwk ("Node wallet signing failed: " ++ er ++
              ". Ensure wallet is unlocked and contains required keys.") = e := by
            simpa using h
          exact Or.inr ⟨_, h'.symm⟩
        · rw [hr] at h
          simp only [] at h
          rcases hh : (resp.get "hex").bind Json.as_str with _ | signed
          · rw [hh] at h
            have h' : SignerError.InvalidTransaction
                "Node signing result missing \x27hex\x27 field" = e := by
              simpa using h
            exact Or.inl ⟨_, h'.symm⟩
          · rw [hh] at h
            cases hc : ((resp.get "complete").bind Json.as_bool).getD false
            · rw [hc] at h
              have h' : SignerError.InvalidTransaction
                  ("Transaction signing incomplete. The node\x27s wallet may be missing required keys. Errors: "
                    ++ (match resp.get "errors" with
                        | some v => Json.serialize v
                        | none => "Unknown errors")) = e := by
                simpa using h
              exact Or.inl ⟨_, h'.symm⟩
            · rw [hc] at h
              by_cases hs : (debug && !debugSliceOk signed) = true <;> simp [hs] at h

/-- Witness for C10 at a concrete error-producing run. -/
theorem c10_witness :
    (∃ d, SignerError.InvalidTransaction "Unsigned transaction hex cannot be empty"
        = .InvalidTransaction d) ∨
    (∃ d, SignerError.InvalidTransaction "Unsigned transaction hex cannot be empty"
        = .Lwk d) :=
  c10_error_variants_closed false (fun _ => .ok Json.null) ""
    (SignerError.InvalidTransaction "Unsigned transaction hex cannot be empty") rfl
